import Mathlib

/-!
Shallow embedding of the remote platform control interface implemented in
lldb/source/API/SBPlatform.cpp.

Modelling conventions:
- `const char *` arguments and return values are `Option String`; `none` is the
  null pointer.  A C string test `p && p[0]` becomes "is `some s` with `s`
  non-empty".
- `std::string` members are `String`, with the empty string playing the role of
  the unset value exactly as in the source.
- `lldb_private::Status` becomes the `Status` inductive: `success`, or `error`
  carrying the message string.
- The external `Platform` collaborator (transport) is a record of functions
  (`Transport`), and every operation additionally returns the list of
  transport primitives it invoked (`TransportCall`), so "performs no transport
  call" is the trace being empty.
- The local filesystem consulted by `Put` (llvm FileSystem / SBFileSpec) is a
  record of functions (`FileSystem`).
- The shared platform pointer `m_opaque_sp` is `Option Platform`; `none` is an
  invalid identity.
-/

/-- Outcome of an operation: mirrors lldb_private::Status / SBError, with
success or an error message string. -/
inductive Status where
  | success : Status
  | error (msg : String) : Status
deriving DecidableEq, Repr

/-- A record of one invocation of a transport primitive, used to trace which
remote calls an operation performs. -/
inductive TransportCall where
  | connectRemote (url : String)
  | getFile (src dst : String)
  | putFile (src dst : String) (permissions : Nat)
  | installFile (src dst : String)
  | runShellCommand (shell command workingDir : String) (timeout : Option Nat)
  | launchProcess
  | killProcess (pid : Nat)
deriving DecidableEq, Repr

/-- The external transport/target collaborator (lldb_private::Platformsʼ remote
primitives), as opaque behaviour supplied by the environment. -/
structure Transport where
  connectRemote : String → Status
  getFile : String → String → Status
  putFile : String → String → Nat → Status
  installFile : String → String → Status
  /-- Returns (operation result, exit status, signal number, captured output). -/
  runShellCommand : String → String → String → Option Nat → Status × Int × Int × String
  /-- Takes the launch configuration, returns result and the possibly mutated
  configuration (models `LaunchProcess(info)` writing back into `info`). -/
  launchProcess : Nat → Status × Nat
  killProcess : Nat → Status

/-- The local filesystem consulted by Put/Install (`src.Exists()`,
`FileSystem::Instance().GetPermissions/IsDirectory`). -/
structure FileSystem where
  Exists : String → Bool
  getPermissions : String → Nat
  isDirectory : String → Bool

/-- The state of a connection identity (lldb_private::Platform object): its
connected flag and working directory (empty string = unset, since
`ConstString::GetCString` returns null for the empty string). -/
structure Platform where
  connected : Bool
  workingDir : String
deriving DecidableEq, Repr

/-- `Platform::GetWorkingDirectory().GetCString()`: null when the stored
working directory is empty. -/
def Platform.GetWorkingDirectory (p : Platform) : Option String :=
  if p.workingDir.isEmpty then none else some p.workingDir

/-- PlatformConnectOptions (SBPlatform.cpp lines 32-46).  The field
`m_rsync_remote_path_head` models the sourceʼs rsync remote path prefix
member. -/
structure PlatformConnectOptions where
  m_url : String := ""
  m_rsync_options : String := ""
  m_rsync_remote_path_head : String := ""
  m_rsync_enabled : Bool := false
  m_rsync_omit_hostname_from_remote_path : Bool := false
  m_local_cache_directory : String := ""
deriving DecidableEq, Repr

/-- `SBPlatformConnectOptions::GetURL`: null when `m_url` is empty. -/
def SBPlatformConnectOptions.GetURL (o : PlatformConnectOptions) : Option String :=
  if o.m_url.isEmpty then none else some o.m_url

/-- `SBPlatformConnectOptions::SetURL`: stores `url` when it is a non-null,
non-empty C string, otherwise clears the field. -/
def SBPlatformConnectOptions.SetURL (url : Option String) (o : PlatformConnectOptions) :
    PlatformConnectOptions :=
  match url with
  | some s => if s.isEmpty then { o with m_url := "" } else { o with m_url := s }
  | none => { o with m_url := "" }

/-- `SBPlatformConnectOptions::GetRsyncEnabled`. -/
def SBPlatformConnectOptions.GetRsyncEnabled (o : PlatformConnectOptions) : Bool :=
  o.m_rsync_enabled

/-- `SBPlatformConnectOptions::EnableRsync`. -/
def SBPlatformConnectOptions.EnableRsync (options remotePathHead : Option String)
    (omitHostname : Bool) (o : PlatformConnectOptions) : PlatformConnectOptions :=
  let o := { o with m_rsync_enabled := true,
                    m_rsync_omit_hostname_from_remote_path := omitHostname }
  let o :=
    match remotePathHead with
    | some s => if s.isEmpty then { o with m_rsync_remote_path_head := "" }
                else { o with m_rsync_remote_path_head := s }
    | none => { o with m_rsync_remote_path_head := "" }
  match options with
  | some s => if s.isEmpty then { o with m_rsync_options := "" }
              else { o with m_rsync_options := s }
  | none => { o with m_rsync_options := "" }

/-- `SBPlatformConnectOptions::DisableRsync`. -/
def SBPlatformConnectOptions.DisableRsync (o : PlatformConnectOptions) :
    PlatformConnectOptions :=
  { o with m_rsync_enabled := false }

/-- `SBPlatformConnectOptions::GetLocalCacheDirectory`: `ConstString.GetCString`
returns null for the empty ConstString. -/
def SBPlatformConnectOptions.GetLocalCacheDirectory (o : PlatformConnectOptions) :
    Option String :=
  if o.m_local_cache_directory.isEmpty then none else some o.m_local_cache_directory

/-- `SBPlatformConnectOptions::SetLocalCacheDirectory`: stores `path` when it is
a non-null, non-empty C string, otherwise resets to the empty ConstString. -/
def SBPlatformConnectOptions.SetLocalCacheDirectory (path : Option String)
    (o : PlatformConnectOptions) : PlatformConnectOptions :=
  match path with
  | some s => if s.isEmpty then { o with m_local_cache_directory := "" }
              else { o with m_local_cache_directory := s }
  | none => { o with m_local_cache_directory := "" }

/-- `UINT32_MAX`, the infinite/absent timeout sentinel. -/
def UINT32_MAX : Nat := 4294967295

/-- PlatformShellCommand (SBPlatform.cpp lines 49-74): configuration and result
of one shell invocation.  `m_timeout` is `Timeout<std::ratio<1>>`, an optional
number of seconds. -/
structure PlatformShellCommand where
  m_shell : String := ""
  m_command : String := ""
  m_working_dir : String := ""
  m_output : String := ""
  m_status : Int := 0
  m_signo : Int := 0
  m_timeout : Option Nat := none
deriving DecidableEq, Repr

/-- The two-argument constructor
`PlatformShellCommand(shell_interpreter, shell_command)` (lines 50-58): the
shell is stored when non-empty, and the command is stored only when the stored
shell is non-empty and the command is non-empty. -/
def PlatformShellCommand.mkWithShell (shell_interpreter shell_command : String) :
    PlatformShellCommand :=
  let sh := if shell_interpreter.isEmpty then "" else shell_interpreter
  let cmd := if !sh.isEmpty && !shell_command.isEmpty then shell_command else ""
  { m_shell := sh, m_command := cmd, m_status := 0, m_signo := 0 }

/-- The one-argument constructor `PlatformShellCommand(shell_command)`
(lines 60-63). -/
def PlatformShellCommand.mkCommand (shell_command : String) : PlatformShellCommand :=
  { m_command := if shell_command.isEmpty then "" else shell_command }

/-- `SBPlatformShellCommand::Clear` (lines 209-215): resets output, status and
signal; touches nothing else. -/
def PlatformShellCommand.Clear (c : PlatformShellCommand) : PlatformShellCommand :=
  { c with m_output := "", m_status := 0, m_signo := 0 }

/-- `SBPlatformShellCommand::GetShell`: null when empty. -/
def PlatformShellCommand.GetShell (c : PlatformShellCommand) : Option String :=
  if c.m_shell.isEmpty then none else some c.m_shell

/-- `SBPlatformShellCommand::GetCommand`: null when empty. -/
def PlatformShellCommand.GetCommand (c : PlatformShellCommand) : Option String :=
  if c.m_command.isEmpty then none else some c.m_command

/-- `SBPlatformShellCommand::SetCommand`. -/
def PlatformShellCommand.SetCommand (shell_command : Option String)
    (c : PlatformShellCommand) : PlatformShellCommand :=
  match shell_command with
  | some s => if s.isEmpty then { c with m_command := "" } else { c with m_command := s }
  | none => { c with m_command := "" }

/-- `SBPlatformShellCommand::GetWorkingDirectory`: null when empty. -/
def PlatformShellCommand.GetWorkingDirectory (c : PlatformShellCommand) : Option String :=
  if c.m_working_dir.isEmpty then none else some c.m_working_dir

/-- `SBPlatformShellCommand::SetWorkingDirectory`. -/
def PlatformShellCommand.SetWorkingDirectory (path : Option String)
    (c : PlatformShellCommand) : PlatformShellCommand :=
  match path with
  | some s => if s.isEmpty then { c with m_working_dir := "" }
              else { c with m_working_dir := s }
  | none => { c with m_working_dir := "" }

/-- `SBPlatformShellCommand::GetTimeoutSeconds` (lines 272-279): the stored
count, or `UINT32_MAX` when the timeout is unset. -/
def PlatformShellCommand.GetTimeoutSeconds (c : PlatformShellCommand) : Nat :=
  match c.m_timeout with
  | some t => t
  | none => UINT32_MAX

/-- `SBPlatformShellCommand::SetTimeoutSeconds` (lines 281-289): `UINT32_MAX`
clears the timeout, any other value is stored as seconds. -/
def PlatformShellCommand.SetTimeoutSeconds (sec : Nat) (c : PlatformShellCommand) :
    PlatformShellCommand :=
  if sec = UINT32_MAX then { c with m_timeout := none }
  else { c with m_timeout := some sec }

/-- `SBPlatform::ExecuteConnected` (lines 615-628): runs `func` only when the
identity is valid and connected; otherwise fails with "not connected" (valid
but disconnected) or "invalid platform" (invalid), performing no transport
call and leaving the threaded state `s` untouched. -/
def SBPlatform.ExecuteConnected {σ : Type} (platform : Option Platform)
    (func : Platform → σ → Status × σ × List TransportCall) (s : σ) :
    Status × σ × List TransportCall :=
  match platform with
  | some p =>
    if p.connected then func p s
    else (Status.error "not connected", s, [])
  | none => (Status.error "invalid platform", s, [])

/-- `SBPlatform::ConnectRemote` (lines 402-416): requires a valid identity and
a non-null URL, then forwards the URL as the single argument of the
transport-level connect and returns its result unchanged. -/
def SBPlatform.ConnectRemote (t : Transport) (platform : Option Platform)
    (connect_options : PlatformConnectOptions) : Status × List TransportCall :=
  match platform, SBPlatformConnectOptions.GetURL connect_options with
  | some _, some url => (t.connectRemote url, [TransportCall.connectRemote url])
  | _, _ => (Status.error "invalid platform", [])

/-- `SBPlatform::Get` (lines 522-534): requires only a valid identity, then
delegates unconditionally to the transportʼs file-fetch primitive. -/
def SBPlatform.Get (t : Transport) (platform : Option Platform) (src dst : String) :
    Status × List TransportCall :=
  match platform with
  | some _ => (t.getFile src dst, [TransportCall.getFile src dst])
  | none => (Status.error "invalid platform", [])

/-- The error message built by `SetErrorStringWithFormat` in Put/Install for a
missing local source path. -/
def srcMissingMessage (src : String) : String :=
  "\x27src\x27 argument doesn\x27t exist: \x27" ++ src ++ "\x27"

/-- Modelled from the spec which calls it the directory-default permission
constant: `lldb::eFilePermissionsDirectoryDefault`, whose defining header is
not part of this source tree. -/
def eFilePermissionsDirectoryDefault : Nat := 0o755

/-- Modelled from the spec which calls it the file-default permission constant:
`lldb::eFilePermissionsFileDefault`, whose defining header is not part of this
source tree. -/
def eFilePermissionsFileDefault : Nat := 0o644

/-- The permission value Put resolves before uploading (lines 541-547): the
local permission bits, or, when they read as zero, the directory default for
directories and the file default otherwise. -/
def resolvedPermissions (fs : FileSystem) (src : String) : Nat :=
  let permissions := fs.getPermissions src
  if permissions = 0 then
    if fs.isDirectory src then eFilePermissionsDirectoryDefault
    else eFilePermissionsFileDefault
  else permissions

/-- `SBPlatform::Put` (lines 536-557): under `ExecuteConnected`, checks the
local existence of `src`, resolves permissions, and uploads; a missing source
yields the formatted error with no transport call. -/
def SBPlatform.Put (t : Transport) (fs : FileSystem) (platform : Option Platform)
    (src dst : String) : Status × Unit × List TransportCall :=
  SBPlatform.ExecuteConnected platform
    (fun _ u =>
      if fs.Exists src then
        let permissions := resolvedPermissions fs src
        (t.putFile src dst permissions, u, [TransportCall.putFile src dst permissions])
      else
        (Status.error (srcMissingMessage src), u, []))
    ()

/-- `SBPlatform::Install` (lines 559-571): under `ExecuteConnected`, checks the
local existence of `src` and delegates to the install primitive; a missing
source yields the formatted error with no transport call. -/
def SBPlatform.Install (t : Transport) (fs : FileSystem) (platform : Option Platform)
    (src dst : String) : Status × Unit × List TransportCall :=
  SBPlatform.ExecuteConnected platform
    (fun _ u =>
      if fs.Exists src then
        (t.installFile src dst, u, [TransportCall.installFile src dst])
      else
        (Status.error (srcMissingMessage src), u, []))
    ()

/-- The closure `SBPlatform::Run` passes to `ExecuteConnected` (lines 577-594):
rejects an empty command, fills an unset working directory from the platformʼs
working directory (visibly mutating the spec), then runs the command and
writes status/signal/output back into the spec. -/
def SBPlatform.runClosure (t : Transport) (p : Platform) (c : PlatformShellCommand) :
    Status × PlatformShellCommand × List TransportCall :=
  match PlatformShellCommand.GetCommand c with
  | none => (Status.error "invalid shell command (empty)", c, [])
  | some command =>
    let wd : Option String :=
      match PlatformShellCommand.GetWorkingDirectory c with
      | some w => some w
      | none => Platform.GetWorkingDirectory p
    let c1 : PlatformShellCommand :=
      match PlatformShellCommand.GetWorkingDirectory c with
      | some _ => c
      | none =>
        match Platform.GetWorkingDirectory p with
        | some w => PlatformShellCommand.SetWorkingDirectory (some w) c
        | none => c
    let wdStr : String := match wd with | some w => w | none => ""
    let r := t.runShellCommand c1.m_shell command wdStr c1.m_timeout
    (r.1,
     { c1 with m_status := r.2.1, m_signo := r.2.2.1, m_output := r.2.2.2 },
     [TransportCall.runShellCommand c1.m_shell command wdStr c1.m_timeout])

/-- `SBPlatform::Run` (lines 573-595). -/
def SBPlatform.Run (t : Transport) (platform : Option Platform)
    (c : PlatformShellCommand) : Status × PlatformShellCommand × List TransportCall :=
  SBPlatform.ExecuteConnected platform (fun p c => SBPlatform.runClosure t p c) c

/-- `SBPlatform::Launch` (lines 597-606): under `ExecuteConnected`, passes the
launch configuration to the transport and writes back the mutated
configuration. -/
def SBPlatform.Launch (t : Transport) (platform : Option Platform) (info : Nat) :
    Status × Nat × List TransportCall :=
  SBPlatform.ExecuteConnected platform
    (fun _ i =>
      let r := t.launchProcess i
      (r.1, r.2, [TransportCall.launchProcess]))
    info

/-- `SBPlatform::Kill` (lines 608-613): under `ExecuteConnected`, delegates to
the transportʼs kill primitive. -/
def SBPlatform.Kill (t : Transport) (platform : Option Platform) (pid : Nat) :
    Status × Unit × List TransportCall :=
  SBPlatform.ExecuteConnected platform
    (fun _ u => (t.killProcess pid, u, [TransportCall.killProcess pid]))
    ()

/-! Concrete fixtures used by witnesses and counterexamples. -/

/-- A transport whose primitives all succeed. -/
def okTransport : Transport where
  connectRemote := fun _ => Status.success
  getFile := fun _ _ => Status.success
  putFile := fun _ _ _ => Status.success
  installFile := fun _ _ => Status.success
  runShellCommand := fun _ _ _ _ => (Status.success, 0, 0, "hi\n")
  launchProcess := fun i => (Status.success, i + 1)
  killProcess := fun _ => Status.success

/-- A local filesystem on which no path exists. -/
def emptyFS : FileSystem where
  Exists := fun _ => false
  getPermissions := fun _ => 0
  isDirectory := fun _ => false

/-- A local filesystem on which every path exists as a plain file with unknown
(zero) permission bits. -/
def zeroPermFS : FileSystem where
  Exists := fun _ => true
  getPermissions := fun _ => 0
  isDirectory := fun _ => false

/-- A valid identity that is not connected. -/
def discPlatform : Platform := { connected := false, workingDir := "" }

/-- A valid, connected identity with a working directory. -/
def connPlatform : Platform := { connected := true, workingDir := "/tmp" }

/-- C1, counterexample: on the valid but disconnected identity, `Get` does not
return the NotConnected error — it bypasses the connectivity gate and returns
the transportʼs fetch result. -/
theorem C1_get_not_gated :
    discPlatform.connected = false ∧
    (SBPlatform.Get okTransport (some discPlatform) "a" "b").1 ≠
      Status.error "not connected" := by
  constructor
  · rfl
  · intro h
    simp [SBPlatform.Get, okTransport] at h

/-- C1 (amended): Run, Put, Install, Launch and Kill fail with "not connected"
on a valid but disconnected identity and with "invalid platform" on an invalid
identity; Get fails with "invalid platform" on an invalid identity, but
performs no connectivity check: on any valid identity it delegates to the
transportʼs fetch primitive. -/
theorem C1_connection_gating (t : Transport) (fs : FileSystem) (p : Platform)
    (src dst : String) (c : PlatformShellCommand) (info pid : Nat)
    (h : p.connected = false) :
    (SBPlatform.Run t (some p) c).1 = Status.error "not connected" ∧
    (SBPlatform.Put t fs (some p) src dst).1 = Status.error "not connected" ∧
    (SBPlatform.Install t fs (some p) src dst).1 = Status.error "not connected" ∧
    (SBPlatform.Launch t (some p) info).1 = Status.error "not connected" ∧
    (SBPlatform.Kill t (some p) pid).1 = Status.error "not connected" ∧
    (SBPlatform.Run t none c).1 = Status.error "invalid platform" ∧
    (SBPlatform.Put t fs none src dst).1 = Status.error "invalid platform" ∧
    (SBPlatform.Install t fs none src dst).1 = Status.error "invalid platform" ∧
    (SBPlatform.Launch t none info).1 = Status.error "invalid platform" ∧
    (SBPlatform.Kill t none pid).1 = Status.error "invalid platform" ∧
    (SBPlatform.Get t none src dst).1 = Status.error "invalid platform" ∧
    (SBPlatform.Get t (some p) src dst).1 = t.getFile src dst := by
  simp [SBPlatform.Run, SBPlatform.Put, SBPlatform.Install, SBPlatform.Launch,
        SBPlatform.Kill, SBPlatform.Get, SBPlatform.ExecuteConnected, h]

/-- C1, witness: the amended gating law evaluated on the disconnected identity
with the all-succeeding transport. -/
theorem C1_connection_gating_witness :
    discPlatform.connected = false ∧
    ((SBPlatform.Run okTransport (some discPlatform) {}).1 =
       Status.error "not connected" ∧
     (SBPlatform.Put okTransport emptyFS (some discPlatform) "a" "b").1 =
       Status.error "not connected" ∧
     (SBPlatform.Install okTransport emptyFS (some discPlatform) "a" "b").1 =
       Status.error "not connected" ∧
     (SBPlatform.Launch okTransport (some discPlatform) 0).1 =
       Status.error "not connected" ∧
     (SBPlatform.Kill okTransport (some discPlatform) 0).1 =
       Status.error "not connected" ∧
     (SBPlatform.Run okTransport none {}).1 = Status.error "invalid platform" ∧
     (SBPlatform.Put okTransport emptyFS none "a" "b").1 =
       Status.error "invalid platform" ∧
     (SBPlatform.Install okTransport emptyFS none "a" "b").1 =
       Status.error "invalid platform" ∧
     (SBPlatform.Launch okTransport none 0).1 = Status.error "invalid platform" ∧
     (SBPlatform.Kill okTransport none 0).1 = Status.error "invalid platform" ∧
     (SBPlatform.Get okTransport none "a" "b").1 = Status.error "invalid platform" ∧
     (SBPlatform.Get okTransport (some discPlatform) "a" "b").1 =
       okTransport.getFile "a" "b") :=
  ⟨rfl, C1_connection_gating okTransport emptyFS discPlatform "a" "b" {} 0 0 rfl⟩

/-- C2: on a valid connected identity, Put and Install with a locally missing
source fail with the formatted missing-source error and invoke no transport
primitive (empty trace), while Get delegates to the fetch primitive with no
local existence check. -/
theorem C2_local_precondition (t : Transport) (fs : FileSystem) (p : Platform)
    (src dst : String) (hc : p.connected = true) (hx : fs.Exists src = false) :
    SBPlatform.Put t fs (some p) src dst =
      (Status.error (srcMissingMessage src), (), []) ∧
    SBPlatform.Install t fs (some p) src dst =
      (Status.error (srcMissingMessage src), (), []) ∧
    SBPlatform.Get t (some p) src dst =
      (t.getFile src dst, [TransportCall.getFile src dst]) := by
  simp [SBPlatform.Put, SBPlatform.Install, SBPlatform.Get,
        SBPlatform.ExecuteConnected, hc, hx]

/-- C2, witness: the local-precondition law evaluated on the connected identity
over the filesystem with no paths. -/
theorem C2_local_precondition_witness :
    connPlatform.connected = true ∧ emptyFS.Exists "a" = false ∧
    (SBPlatform.Put okTransport emptyFS (some connPlatform) "a" "b" =
       (Status.error (srcMissingMessage "a"), (), []) ∧
     SBPlatform.Install okTransport emptyFS (some connPlatform) "a" "b" =
       (Status.error (srcMissingMessage "a"), (), []) ∧
     SBPlatform.Get okTransport (some connPlatform) "a" "b" =
       (okTransport.getFile "a" "b", [TransportCall.getFile "a" "b"])) :=
  ⟨rfl, rfl, C2_local_precondition okTransport emptyFS connPlatform "a" "b" rfl rfl⟩

/-- C3: on a valid connected identity with a locally existing source, Put
passes the resolved permission value to the upload primitive, where the
resolved value is the local permission bits when they are non-zero, and
otherwise the directory default for directories and the file default for
non-directories. -/
theorem C3_permission_resolution (t : Transport) (fs : FileSystem) (p : Platform)
    (src dst : String) (hc : p.connected = true) (hx : fs.Exists src = true) :
    SBPlatform.Put t fs (some p) src dst =
      (t.putFile src dst (resolvedPermissions fs src), (),
       [TransportCall.putFile src dst (resolvedPermissions fs src)]) ∧
    (fs.getPermissions src ≠ 0 →
       resolvedPermissions fs src = fs.getPermissions src) ∧
    (fs.getPermissions src = 0 → fs.isDirectory src = true →
       resolvedPermissions fs src = eFilePermissionsDirectoryDefault) ∧
    (fs.getPermissions src = 0 → fs.isDirectory src = false →
       resolvedPermissions fs src = eFilePermissionsFileDefault) := by
  refine ⟨?_, ?_, ?_, ?_⟩
  · simp [SBPlatform.Put, SBPlatform.ExecuteConnected, hc, hx]
  · intro h
    simp [resolvedPermissions, h]
  · intro h hd
    simp [resolvedPermissions, h, hd]
  · intro h hd
    simp [resolvedPermissions, h, hd]

/-- C3, witness: the permission-resolution law evaluated on the connected
identity over the filesystem whose files exist with zero permission bits. -/
theorem C3_permission_resolution_witness :
    connPlatform.connected = true ∧ zeroPermFS.Exists "a" = true ∧
    zeroPermFS.getPermissions "a" = 0 ∧ zeroPermFS.isDirectory "a" = false ∧
    (SBPlatform.Put okTransport zeroPermFS (some connPlatform) "a" "b" =
       (okTransport.putFile "a" "b" (resolvedPermissions zeroPermFS "a"), (),
        [TransportCall.putFile "a" "b" (resolvedPermissions zeroPermFS "a")]) ∧
     resolvedPermissions zeroPermFS "a" = eFilePermissionsFileDefault) := by
  have h := C3_permission_resolution okTransport zeroPermFS connPlatform "a" "b" rfl rfl
  exact ⟨rfl, rfl, rfl, rfl, h.1, h.2.2.2 rfl rfl⟩

/-- C4: ConnectRemote fails with "invalid platform" when the identity is
invalid or the optionsʼ URL is absent, and otherwise forwards the URL as the
single argument of the transport-level connect routine and returns its result
unchanged. -/
theorem C4_connect_remote (t : Transport) (p : Platform)
    (o : PlatformConnectOptions) :
    SBPlatform.ConnectRemote t none o = (Status.error "invalid platform", []) ∧
    (SBPlatformConnectOptions.GetURL o = none →
       SBPlatform.ConnectRemote t (some p) o =
         (Status.error "invalid platform", [])) ∧
    (∀ url, SBPlatformConnectOptions.GetURL o = some url →
       SBPlatform.ConnectRemote t (some p) o =
         (t.connectRemote url, [TransportCall.connectRemote url])) := by
  refine ⟨?_, ?_, ?_⟩
  · simp [SBPlatform.ConnectRemote]
  · intro h
    simp [SBPlatform.ConnectRemote, h]
  · intro url h
    simp [SBPlatform.ConnectRemote, h]

/-- C4, witness: ConnectRemote evaluated with an absent URL and with the URL
"connect://host:1234". -/
theorem C4_connect_remote_witness :
    SBPlatform.ConnectRemote okTransport (some connPlatform) {} =
      (Status.error "invalid platform", []) ∧
    SBPlatform.ConnectRemote okTransport (some connPlatform)
        { m_url := "connect://host:1234" } =
      (okTransport.connectRemote "connect://host:1234",
       [TransportCall.connectRemote "connect://host:1234"]) :=
  ⟨(C4_connect_remote okTransport connPlatform {}).2.1 rfl,
   (C4_connect_remote okTransport connPlatform { m_url := "connect://host:1234" }).2.2
     "connect://host:1234" (by decide)⟩

/-- The empty string is empty. -/
theorem empty_string_isEmpty : "".isEmpty = true := rfl

/-- A string other than the empty string is not empty. -/
theorem isEmpty_false_of_ne {s : String} (h : s ≠ "") : s.isEmpty = false := by
  rcases hb : s.isEmpty with _ | _
  · rfl
  · exact absurd ((String.isEmpty_iff s).mp hb) h

/-- C5: on a valid connected identity, running a spec with a non-empty command
and an unset working directory fills the specʼs working directory from the
connectionʼs current working directory — the assignment is visible in the spec
returned to the caller — and executes the command under that directory. -/
theorem C5_working_dir_fill (t : Transport) (p : Platform) (c : PlatformShellCommand)
    (hc : p.connected = true) (hcmd : c.m_command ≠ "") (hwd : c.m_working_dir = "") :
    ((SBPlatform.Run t (some p) c).2.1).GetWorkingDirectory =
      p.GetWorkingDirectory ∧
    (SBPlatform.Run t (some p) c).2.2 =
      [TransportCall.runShellCommand c.m_shell c.m_command p.workingDir
        c.m_timeout] ∧
    (∀ w, p.GetWorkingDirectory = some w →
       ((SBPlatform.Run t (some p) c).2.1).m_working_dir = w) := by
  have hce : c.m_command.isEmpty = false := isEmpty_false_of_ne hcmd
  by_cases hp : p.workingDir.isEmpty
  · have hp' : p.workingDir = "" := (String.isEmpty_iff p.workingDir).mp hp
    simp [SBPlatform.Run, SBPlatform.ExecuteConnected, SBPlatform.runClosure,
          PlatformShellCommand.GetCommand, PlatformShellCommand.GetWorkingDirectory,
          PlatformShellCommand.SetWorkingDirectory, Platform.GetWorkingDirectory,
          hc, hce, hp, hp', hwd, empty_string_isEmpty]
  · simp [SBPlatform.Run, SBPlatform.ExecuteConnected, SBPlatform.runClosure,
          PlatformShellCommand.GetCommand, PlatformShellCommand.GetWorkingDirectory,
          PlatformShellCommand.SetWorkingDirectory, Platform.GetWorkingDirectory,
          hc, hce, hp, hwd, empty_string_isEmpty]

/-- C5, witness: the working-directory fill evaluated on the connected identity
whose working directory is "/tmp" and a spec holding only the command
"echo hi". -/
theorem C5_working_dir_fill_witness :
    connPlatform.connected = true ∧
    ((SBPlatform.Run okTransport (some connPlatform)
        (PlatformShellCommand.mkCommand "echo hi")).2.1).GetWorkingDirectory =
      connPlatform.GetWorkingDirectory ∧
    ((SBPlatform.Run okTransport (some connPlatform)
        (PlatformShellCommand.mkCommand "echo hi")).2.1).m_working_dir = "/tmp" :=
  ⟨rfl,
   (C5_working_dir_fill okTransport connPlatform
      (PlatformShellCommand.mkCommand "echo hi") rfl (by decide) rfl).1,
   (C5_working_dir_fill okTransport connPlatform
      (PlatformShellCommand.mkCommand "echo hi") rfl (by decide) rfl).2.2
     "/tmp" (by decide)⟩

/-- C6: on a valid connected identity, Run with an empty command fails with
"invalid shell command (empty)", leaves the spec untouched and invokes no
transport primitive. -/
theorem C6_empty_command (t : Transport) (p : Platform) (c : PlatformShellCommand)
    (hc : p.connected = true) (hcmd : c.m_command = "") :
    SBPlatform.Run t (some p) c =
      (Status.error "invalid shell command (empty)", c, []) := by
  simp [SBPlatform.Run, SBPlatform.ExecuteConnected, SBPlatform.runClosure,
        PlatformShellCommand.GetCommand, hc, hcmd, empty_string_isEmpty]

/-- C6, witness: the empty-command rejection evaluated on the connected
identity and the default spec. -/
theorem C6_empty_command_witness :
    connPlatform.connected = true ∧
    SBPlatform.Run okTransport (some connPlatform) {} =
      (Status.error "invalid shell command (empty)", {}, []) :=
  ⟨rfl, C6_empty_command okTransport connPlatform {} rfl rfl⟩

/-- The normalization applied by every C-string setter in the source: a null or
empty input becomes the absent value, any other string is kept. -/
def normalizeCStr (s : Option String) : Option String :=
  match s with
  | some s => if s.isEmpty then none else some s
  | none => none

/-- C7: setting the URL or the local cache directory of a ConnectOptions value
and reading it back returns the last-set value, with null or empty input
normalizing to the absent value. -/
theorem C7_options_round_trip (o : PlatformConnectOptions) (input : Option String) :
    SBPlatformConnectOptions.GetURL (SBPlatformConnectOptions.SetURL input o) =
      normalizeCStr input ∧
    SBPlatformConnectOptions.GetLocalCacheDirectory
        (SBPlatformConnectOptions.SetLocalCacheDirectory input o) =
      normalizeCStr input := by
  cases input with
  | none =>
      simp [SBPlatformConnectOptions.GetURL, SBPlatformConnectOptions.SetURL,
            SBPlatformConnectOptions.GetLocalCacheDirectory,
            SBPlatformConnectOptions.SetLocalCacheDirectory, normalizeCStr,
            empty_string_isEmpty]
  | some s =>
      by_cases hs : s.isEmpty <;>
        simp [SBPlatformConnectOptions.GetURL, SBPlatformConnectOptions.SetURL,
              SBPlatformConnectOptions.GetLocalCacheDirectory,
              SBPlatformConnectOptions.SetLocalCacheDirectory, normalizeCStr, hs,
              empty_string_isEmpty]

/-- C8: Clear resets output, status and signal to their zero values, leaves
shell, command, working directory and timeout unchanged, and any number of
successive Clears equals a single Clear. -/
theorem C8_clear_idempotent (c : PlatformShellCommand) :
    c.Clear.m_output = "" ∧ c.Clear.m_status = 0 ∧ c.Clear.m_signo = 0 ∧
    c.Clear.m_shell = c.m_shell ∧ c.Clear.m_command = c.m_command ∧
    c.Clear.m_working_dir = c.m_working_dir ∧ c.Clear.m_timeout = c.m_timeout ∧
    ∀ n : Nat, PlatformShellCommand.Clear^[n + 1] c = c.Clear := by
  refine ⟨rfl, rfl, rfl, rfl, rfl, rfl, rfl, ?_⟩
  intro n
  induction n with
  | zero => rfl
  | succ n ih =>
      rw [Function.iterate_succ_apply', ih]
      rfl

/-- C9: SetTimeoutSeconds with the UINT32_MAX sentinel reads back as
UINT32_MAX, and any other 32-bit value round-trips exactly. -/
theorem C9_timeout_round_trip (c : PlatformShellCommand) (v : Nat)
    (hv : v < UINT32_MAX) :
    (PlatformShellCommand.SetTimeoutSeconds UINT32_MAX c).GetTimeoutSeconds =
      UINT32_MAX ∧
    (PlatformShellCommand.SetTimeoutSeconds v c).GetTimeoutSeconds = v := by
  constructor
  · simp [PlatformShellCommand.SetTimeoutSeconds, PlatformShellCommand.GetTimeoutSeconds]
  · simp [PlatformShellCommand.SetTimeoutSeconds, PlatformShellCommand.GetTimeoutSeconds,
          Nat.ne_of_lt hv]

/-- C9, witness: the timeout round-trip evaluated at 7 seconds on the default
spec. -/
theorem C9_timeout_round_trip_witness :
    7 < UINT32_MAX ∧
    ((PlatformShellCommand.SetTimeoutSeconds UINT32_MAX
        ({} : PlatformShellCommand)).GetTimeoutSeconds = UINT32_MAX ∧
     (PlatformShellCommand.SetTimeoutSeconds 7
        ({} : PlatformShellCommand)).GetTimeoutSeconds = 7) :=
  ⟨by decide, C9_timeout_round_trip {} 7 (by decide)⟩

/-- C10: the two-argument shell-command constructor discards the command when
the interpreter is empty — GetCommand on the result is absent — and stores it
when both the interpreter and the command are non-empty. -/
theorem C10_ctor_discards_command (sh cmd : String) :
    (PlatformShellCommand.mkWithShell "" cmd).GetCommand = none ∧
    (sh ≠ "" → cmd ≠ "" →
       (PlatformShellCommand.mkWithShell sh cmd).GetCommand = some cmd) := by
  constructor
  · simp [PlatformShellCommand.mkWithShell, PlatformShellCommand.GetCommand,
          empty_string_isEmpty]
  · intro hsh hcmd
    have hsh' : sh.isEmpty = false := isEmpty_false_of_ne hsh
    have hcmd' : cmd.isEmpty = false := isEmpty_false_of_ne hcmd
    simp [PlatformShellCommand.mkWithShell, PlatformShellCommand.GetCommand,
          hsh', hcmd']

/-- C10, witness: the constructor evaluated with an empty interpreter and
command "ls", and with interpreter "/bin/sh" and command "ls". -/
theorem C10_ctor_discards_command_witness :
    (PlatformShellCommand.mkWithShell "" "ls").GetCommand = none ∧
    (PlatformShellCommand.mkWithShell "/bin/sh" "ls").GetCommand = some "ls" :=
  ⟨(C10_ctor_discards_command "" "ls").1,
   (C10_ctor_discards_command "/bin/sh" "ls").2 (by decide) (by decide)⟩
